import Mathlib

/-!
Verification of the banking-manager server actions.

The TypeScript server actions are shallowly embedded as pure Lean
functions.  External services (the Appwrite identity/data store, the
Plaid aggregator, the Dwolla payment processor) are modelled as
environments: records of functions that, for each outgoing request,
yield either a successful response or a failure (`Except Unit _`,
mirroring a thrown exception).  Each action returns its JavaScript
result together with a trace of the external calls it performed, in
order; a `try/catch` that swallows an error is modelled by the
corresponding branch returning the absent value with the trace
accumulated so far.
-/

/-- A JavaScript value that may be `undefined` (absent), `null`, or present.
The actions distinguish all three: a swallowed exception yields `undefined`,
an explicit `return null` yields `null`. -/
inductive JsValue (α : Type) where
  | undefined : JsValue α
  | null : JsValue α
  | value : α → JsValue α
deriving Repr, DecidableEq

/-- The shape of an Appwrite `listDocuments` response: a `total` count and
the page of matching `documents`. -/
structure DocumentList (α : Type) where
  total : Nat
  documents : List α
deriving Repr, DecidableEq

/-- The Appwrite document store, modelled as the list of documents in one
collection; `listDocuments` with an equality filter returns the matching
documents and their count (spec §6: "document create/list with equality
filters keyed by field name"). -/
def listDocuments (db : List α) (p : α → Bool) : DocumentList α :=
  let docs := db.filter p
  { total := docs.length, documents := docs }

/-- JavaScript array indexing `xs[i]`: the element when present, the
`undefined` value when out of range. -/
def jsIndex (xs : List α) (i : Nat) : JsValue α :=
  match xs.get? i with
  | some x => JsValue.value x
  | none => JsValue.undefined

/-- Modelled from the spec: `parseStringify` lives in `src/lib/utils.ts`,
which is not under `src/`.  The spec treats it as response reshaping (a
JSON round-trip), the identity on plain present data; an absent input
yields an absent result (in JavaScript the round-trip of `undefined`
throws inside the caller's `try`, which swallows it — observably the
same absent outcome). -/
def parseStringify : JsValue α → JsValue α
  | JsValue.value a => JsValue.value a
  | _ => JsValue.undefined

/-- The characters of the current URL segment, restarted at every
slash: a helper for `extractCustomerIdFromUrl`. -/
def lastSegmentAux : List Char → List Char → List Char
  | [], acc => acc
  | c :: cs, acc => if c = '/' then lastSegmentAux cs [] else lastSegmentAux cs (acc ++ [c])

/-- Modelled from the spec: `extractCustomerIdFromUrl` lives in
`src/lib/utils.ts`, which is not under `src/`.  Spec §4.3/§6: "the
processor encodes the customer identifier inside this URL", and signUp
"extracts the processor's generated customer identifier from the
returned location URL" — modelled as taking the final path segment. -/
def extractCustomerIdFromUrl (url : String) : String :=
  String.mk (lastSegmentAux url.toList [])

/-- Modelled from the spec: `encryptId` lives in `src/lib/utils.ts`, which
is not under `src/`.  Spec §4.1 step 5: "an encrypted form of the account
id as a shareable identifier" — modelled as an injective tagging of the
account id; no claim depends on the cipher itself. -/
def encryptId (id : String) : String :=
  "encrypted:" ++ id

/-! ## Data model (spec §3) -/

/-- A Bank (linked account) document, with the fields persisted by
`createBankAccount`. -/
structure BankDoc where
  userId : String
  bankId : String
  accountId : String
  accessToken : String
  fundingSourceUrl : String
  shareableId : String
deriving Repr, DecidableEq

/-- The caller-supplied sign-up data destructured and spread by `signUp`
(the fields its JSDoc and the spec scenario name). -/
structure UserData where
  email : String
  firstName : String
  lastName : String
deriving Repr, DecidableEq

/-- A User document as persisted by `signUp`: the spread `userData` plus
the identity-account id and the two processor-customer identifiers. -/
structure UserDoc where
  data : UserData
  userId : String
  dwollaCustomerId : String
  dwollaCustomerUrl : String
deriving Repr, DecidableEq

/-- An Appwrite session: the secret that goes into the cookie and the
account's user id. -/
structure Session where
  secret : String
  userId : String
deriving Repr, DecidableEq

/-- A Transaction document (`channel` and `category` are set by
`createTransaction`, the rest comes from the caller). -/
structure TransactionDoc where
  channel : String
  category : String
  senderBankId : String
  receiverBankId : String
  amount : Int
  currency : String
deriving Repr, DecidableEq

/-- The caller-supplied fields of `createTransaction`
(per its JSDoc: sender bank, receiver bank, amount, currency). -/
structure CreateTransactionProps where
  senderBankId : String
  receiverBankId : String
  amount : Int
  currency : String
deriving Repr, DecidableEq

/-- One Plaid account's metadata, the fields the workflow reads. -/
structure PlaidAccount where
  account_id : String
  name : String
deriving Repr, DecidableEq

/-- The Plaid `itemPublicTokenExchange` response body. -/
structure ExchangeResp where
  access_token : String
  item_id : String
deriving Repr, DecidableEq

/-- The request body actually posted by `createFundingSource`: the
customer id (in the URL path) plus `name` and `plaidToken` — note the
`_links` member of the options object is NOT copied into the request. -/
structure FundingSourceRequest where
  customerId : String
  name : String
  plaidToken : String
deriving Repr, DecidableEq

/-- The options object built by `addFundingSource` and passed to
`createFundingSource`, including the `_links` field (possibly absent). -/
structure CreateFundingSourceOptions where
  customerId : String
  fundingSourceName : String
  plaidToken : String
  links : Option String
deriving Repr, DecidableEq

/-- Parameters of `addFundingSource`. -/
structure AddFundingSourceParams where
  dwollaCustomerId : String
  processorToken : String
  bankName : String
deriving Repr, DecidableEq

/-! ## External-call events

Each action's run is recorded as the ordered list of requests it sent to
the external services. -/

/-- One outgoing external call, with the data the request carried. -/
inductive Ev where
  | publicTokenExchange (publicToken : String)
  | accountsGet (accessToken : String)
  | processorTokenCreate (accessToken accountId : String)
  | onDemandAuth
  | fundingSourceCreate (req : FundingSourceRequest)
  | dwollaCustomerCreate (params : UserData)
  | createBankDoc (doc : BankDoc)
  | createUserDoc (doc : UserDoc)
  | createTransactionDoc (doc : TransactionDoc)
  | accountCreate (email password name : String)
  | sessionCreate (email password : String)
  | cookieSet (name secret : String)
  | cookieDelete (name : String)
  | sessionDelete (which : String)
  | revalidate (path : String)
deriving Repr, DecidableEq

/-! ## Environments -/

/-- The Dwolla client: outcome of each request the adapter can send.
`fundingSourceCreate` returns the `Location` header, which may be null
(`Except.ok none`); an HTTP failure is `Except.error`. -/
structure DwollaEnv where
  onDemandAuth : Except Unit String
  fundingSourceCreate : FundingSourceRequest → Except Unit (Option String)
  customerCreate : UserData → Except Unit (Option String)

/-- The Plaid client: outcome of each aggregator request. -/
structure PlaidEnv where
  publicTokenExchange : String → Except Unit ExchangeResp
  accountsGet : String → Except Unit (List PlaidAccount)
  processorTokenCreate : String → String → Except Unit String

/-! ## Payment actions (processor adapter, dwolla.actions) -/

/-- Action `createOnDemandAuthorization`: posts `on-demand-authorizations` and
returns the `_links` object; its own catch swallows failure into an
absent result. -/
def createOnDemandAuthorization (env : DwollaEnv) : Option String × List Ev :=
  match env.onDemandAuth with
  | Except.ok links => (some links, [Ev.onDemandAuth])
  | Except.error _ => (none, [Ev.onDemandAuth])

/-- Action `createFundingSource`: posts
`customers/{customerId}/funding-sources` with body `{name, plaidToken}`
(the options' `_links` is not part of the request) and returns the
`Location` header; its own catch swallows failure into an absent
result. -/
def createFundingSource (env : DwollaEnv) (options : CreateFundingSourceOptions) :
    Option String × List Ev :=
  let req : FundingSourceRequest :=
    { customerId := options.customerId
      name := options.fundingSourceName
      plaidToken := options.plaidToken }
  match env.fundingSourceCreate req with
  | Except.ok loc => (loc, [Ev.fundingSourceCreate req])
  | Except.error _ => (none, [Ev.fundingSourceCreate req])

/-- Action `createDwollaCustomer`: posts `customers` and returns the `Location`
header; its own catch swallows failure into an absent result. -/
def createDwollaCustomer (env : DwollaEnv) (newCustomer : UserData) :
    Option String × List Ev :=
  match env.customerCreate newCustomer with
  | Except.ok loc => (loc, [Ev.dwollaCustomerCreate newCustomer])
  | Except.error _ => (none, [Ev.dwollaCustomerCreate newCustomer])

/-- Action `addFundingSource`: fetches the on-demand authorization (whose own
catch makes it non-throwing), builds the options object with the links,
and calls `createFundingSource`; its outer catch is unreachable since
neither inner call throws. -/
def addFundingSource (env : DwollaEnv) (p : AddFundingSourceParams) :
    Option String × List Ev :=
  let auth := createOnDemandAuthorization env
  let fundingSourceOptions : CreateFundingSourceOptions :=
    { customerId := p.dwollaCustomerId
      fundingSourceName := p.bankName
      plaidToken := p.processorToken
      links := auth.1 }
  let fs := createFundingSource env fundingSourceOptions
  (fs.1, auth.2 ++ fs.2)

/-! ## Transfer actions (transactions.actions) -/

/-- Action `createTransaction`: persists a Transaction built from fixed
`channel: 'Online'`, `category: 'Transfer'`, spread with the caller's
fields (which do not include channel/category); on store failure the
catch logs and yields an absent result with the store unchanged. -/
def createTransaction (db : List TransactionDoc) (storeOk : Bool)
    (transaction : CreateTransactionProps) :
    List TransactionDoc × Option TransactionDoc × List Ev :=
  let newTransaction : TransactionDoc :=
    { channel := "Online"
      category := "Transfer"
      senderBankId := transaction.senderBankId
      receiverBankId := transaction.receiverBankId
      amount := transaction.amount
      currency := transaction.currency }
  if storeOk then
    (db ++ [newTransaction], some newTransaction, [Ev.createTransactionDoc newTransaction])
  else
    (db, none, [Ev.createTransactionDoc newTransaction])

/-- Action `getTransactionsByBankId`: two equality queries (as sender, as
receiver); the result's `total` is the sum of the two totals and its
`documents` the concatenation of the two pages. -/
def getTransactionsByBankId (db : List TransactionDoc) (bankId : String) :
    DocumentList TransactionDoc :=
  let senderTransactions := listDocuments db (fun t => t.senderBankId == bankId)
  let receiverTransactions := listDocuments db (fun t => t.receiverBankId == bankId)
  { total := senderTransactions.total + receiverTransactions.total
    documents := senderTransactions.documents ++ receiverTransactions.documents }

/-! ## User actions (user.actions) -/

/-- A User record held in the user collection, as read by `getUserInfo`
(the `userId` equality filter plus the rest of the document). -/
structure UserRecord where
  userId : String
  doc : UserDoc
deriving Repr, DecidableEq

/-- Action `getUserInfo`: one equality query on `userId`, then `documents[0]`
through `parseStringify` — no uniqueness check; an empty result set
makes `documents[0]` the absent value. -/
def getUserInfo (db : List UserRecord) (userId : String) : JsValue UserRecord :=
  let user := listDocuments db (fun u => u.userId == userId)
  parseStringify (jsIndex user.documents 0)

/-- Action `getBankByAccountId`: one equality query on `accountId`; returns
`null` unless `total` is exactly 1, else `documents[0]`. -/
def getBankByAccountId (db : List BankDoc) (accountId : String) : JsValue BankDoc :=
  let bank := listDocuments db (fun b => b.accountId == accountId)
  if bank.total != 1 then JsValue.null
  else parseStringify (jsIndex bank.documents 0)

/-- The identity-service and data-store side of `signUp`:
`accountCreate` yields the new account's id, `createUserDoc` persists
the given document, `sessionCreate` opens an email/password session. -/
structure SignUpEnv where
  accountCreate : String → String → String → Except Unit String
  createUserDoc : UserDoc → Except Unit Unit
  sessionCreate : String → String → Except Unit Session

/-- Action `signUp`: identity account, then processor customer (via
`createDwollaCustomer`, whose own catch makes it non-throwing), a
falsy-URL guard, the User document, the session, the cookie; any throw
is swallowed by the outer catch into an absent result. -/
def signUp (env : SignUpEnv) (denv : DwollaEnv) (password : String)
    (userData : UserData) : Option UserDoc × List Ev :=
  let fullName := userData.firstName ++ " " ++ userData.lastName
  match env.accountCreate userData.email password fullName with
  | Except.error _ => (none, [Ev.accountCreate userData.email password fullName])
  | Except.ok accountId =>
    let t1 := [Ev.accountCreate userData.email password fullName]
    let cust := createDwollaCustomer denv userData
    let t2 := t1 ++ cust.2
    match cust.1 with
    | none => (none, t2)
    | some dwollaCustomerUrl =>
      if dwollaCustomerUrl = "" then (none, t2)
      else
        let dwollaCustomerId := extractCustomerIdFromUrl dwollaCustomerUrl
        let newUser : UserDoc :=
          { data := userData
            userId := accountId
            dwollaCustomerId := dwollaCustomerId
            dwollaCustomerUrl := dwollaCustomerUrl }
        match env.createUserDoc newUser with
        | Except.error _ => (none, t2 ++ [Ev.createUserDoc newUser])
        | Except.ok _ =>
          let t3 := t2 ++ [Ev.createUserDoc newUser]
          match env.sessionCreate userData.email password with
          | Except.error _ => (none, t3 ++ [Ev.sessionCreate userData.email password])
          | Except.ok session =>
            (some newUser,
              t3 ++ [Ev.sessionCreate userData.email password,
                     Ev.cookieSet "appwrite-session" session.secret])

/-- The session-scoped client side of `logoutAccount`: whether
constructing the session client (which requires a session cookie) and
revoking the current session succeed. -/
structure LogoutEnv where
  sessionClient : Except Unit Unit
  deleteSession : Except Unit Unit

/-- Action `logoutAccount`: deletes the cookie and revokes the session; the
catch returns `null`, but the success path falls off the end of the
function body, returning `undefined`. -/
def logoutAccount (env : LogoutEnv) : JsValue Unit × List Ev :=
  match env.sessionClient with
  | Except.error _ => (JsValue.null, [])
  | Except.ok _ =>
    match env.deleteSession with
    | Except.error _ => (JsValue.null, [Ev.cookieDelete "appwrite-session"])
    | Except.ok _ =>
      (JsValue.undefined,
        [Ev.cookieDelete "appwrite-session", Ev.sessionDelete "current"])

/-! ## Linking workflow (exchangePublicToken) -/

/-- Everything `exchangePublicToken` and `createBankAccount` call:
the Plaid client, the Dwolla client, and the bank-collection store. -/
structure ExchangeEnv where
  plaid : PlaidEnv
  dwolla : DwollaEnv
  createBankDoc : BankDoc → Except Unit Unit

/-- Parameters of `exchangePublicToken`: the public token and the fields
of the `user` object the workflow reads (`user.$id`,
`user.dwollaCustomerId`). -/
structure ExchangeProps where
  publicToken : String
  userId : String
  dwollaCustomerId : String
deriving Repr, DecidableEq

/-- Action `createBankAccount`: persists the Bank document verbatim from its
fields; its catch block is empty, so a store failure is swallowed into
an absent result with no rethrow. -/
def createBankAccount (env : ExchangeEnv) (doc : BankDoc) :
    Option BankDoc × List Ev :=
  match env.createBankDoc doc with
  | Except.ok _ => (some doc, [Ev.createBankDoc doc])
  | Except.error _ => (none, [Ev.createBankDoc doc])

/-- The workflow's success envelope `{publicTokenExchange: "complete"}`. -/
structure ExchangeResult where
  publicTokenExchange : String
deriving Repr, DecidableEq

/-- Action `exchangePublicToken`: token exchange, account fetch, first-account
selection (`accounts[0]` on an empty list makes the later field access
throw, caught by the outer handler), processor token, funding source,
falsy-URL guard, Bank persistence (result unchecked), revalidation;
any throw is swallowed by the outer catch into an absent result. -/
def exchangePublicToken (env : ExchangeEnv) (p : ExchangeProps) :
    Option ExchangeResult × List Ev :=
  match env.plaid.publicTokenExchange p.publicToken with
  | Except.error _ => (none, [Ev.publicTokenExchange p.publicToken])
  | Except.ok resp =>
    let t1 := [Ev.publicTokenExchange p.publicToken]
    match env.plaid.accountsGet resp.access_token with
    | Except.error _ => (none, t1 ++ [Ev.accountsGet resp.access_token])
    | Except.ok accounts =>
      let t2 := t1 ++ [Ev.accountsGet resp.access_token]
      match accounts.head? with
      | none => (none, t2)
      | some accountData =>
        match env.plaid.processorTokenCreate resp.access_token accountData.account_id with
        | Except.error _ =>
          (none, t2 ++ [Ev.processorTokenCreate resp.access_token accountData.account_id])
        | Except.ok processorToken =>
          let t3 := t2 ++ [Ev.processorTokenCreate resp.access_token accountData.account_id]
          let fs := addFundingSource env.dwolla
            { dwollaCustomerId := p.dwollaCustomerId
              processorToken := processorToken
              bankName := accountData.name }
          let t4 := t3 ++ fs.2
          match fs.1 with
          | none => (none, t4)
          | some fundingSourceUrl =>
            if fundingSourceUrl = "" then (none, t4)
            else
              let bank := createBankAccount env
                { userId := p.userId
                  bankId := resp.item_id
                  accountId := accountData.account_id
                  accessToken := resp.access_token
                  fundingSourceUrl := fundingSourceUrl
                  shareableId := encryptId accountData.account_id }
              (some { publicTokenExchange := "complete" },
                t4 ++ bank.2 ++ [Ev.revalidate "/"])

/-! ## Helper definitions for the theorems -/

/-- The request `addFundingSource` causes to be posted, as a function of
its parameters. -/
def mkFundingSourceRequest (p : AddFundingSourceParams) : FundingSourceRequest :=
  { customerId := p.dwollaCustomerId
    name := p.bankName
    plaidToken := p.processorToken }

/-- The value `createFundingSource` hands back for a given request: the
location header on success, the absent value on a thrown-and-caught
failure. -/
def fundingSourceOutcome (env : DwollaEnv) (req : FundingSourceRequest) : Option String :=
  match env.fundingSourceCreate req with
  | Except.ok loc => loc
  | Except.error _ => none

/-- Recognizer for identity-account creation events. -/
def isAccountCreate : Ev → Bool
  | Ev.accountCreate _ _ _ => true
  | _ => false

/-- Recognizer for processor-customer creation events. -/
def isDwollaCustomerCreate : Ev → Bool
  | Ev.dwollaCustomerCreate _ => true
  | _ => false

/-- Recognizer for User-document persistence events. -/
def isCreateUserDoc : Ev → Bool
  | Ev.createUserDoc _ => true
  | _ => false

/-- Characterization of one `addFundingSource` run: regardless of the
authorization outcome, exactly one authorization request and one
funding-source registration are sent, and the result is the
registration outcome. -/
theorem addFundingSource_run (env : DwollaEnv) (p : AddFundingSourceParams) :
    addFundingSource env p =
      (fundingSourceOutcome env (mkFundingSourceRequest p),
       [Ev.onDemandAuth, Ev.fundingSourceCreate (mkFundingSourceRequest p)]) := by
  unfold addFundingSource createOnDemandAuthorization createFundingSource
    fundingSourceOutcome mkFundingSourceRequest
  cases env.onDemandAuth <;>
    cases h : env.fundingSourceCreate
      { customerId := p.dwollaCustomerId, name := p.bankName, plaidToken := p.processorToken } <;>
    simp [h]

/-! ## Claims -/

/-- C3: for every accountId, `getBankByAccountId` returns null when the
number of matching Bank documents is 0 or at least 2, and returns the
single matching document when the count is exactly 1. -/
theorem getBankByAccountId_unique_or_null (db : List BankDoc) (accountId : String) :
    ((db.filter (fun b => b.accountId == accountId)).length = 0 ∨
        2 ≤ (db.filter (fun b => b.accountId == accountId)).length →
      getBankByAccountId db accountId = JsValue.null) ∧
    (∀ b, db.filter (fun b => b.accountId == accountId) = [b] →
      getBankByAccountId db accountId = JsValue.value b) := by
  constructor
  · intro h
    have hne : (db.filter (fun b => b.accountId == accountId)).length ≠ 1 := by
      rcases h with h | h <;> omega
    simp [getBankByAccountId, listDocuments, hne]
  · intro b hb
    simp [getBankByAccountId, listDocuments, hb, jsIndex, parseStringify]

/-- Witness for C3: on a store with two matching records the action
returns null; on a store with exactly one matching record it returns
that record. -/
theorem getBankByAccountId_unique_or_null_witness :
    getBankByAccountId
        [{ userId := "u", bankId := "b", accountId := "acc1", accessToken := "t",
           fundingSourceUrl := "f", shareableId := "s" },
         { userId := "u", bankId := "b2", accountId := "acc1", accessToken := "t2",
           fundingSourceUrl := "f2", shareableId := "s2" }] "acc1" = JsValue.null ∧
    getBankByAccountId
        [{ userId := "u", bankId := "b", accountId := "acc1", accessToken := "t",
           fundingSourceUrl := "f", shareableId := "s" }] "acc1" =
      JsValue.value
        { userId := "u", bankId := "b", accountId := "acc1", accessToken := "t",
          fundingSourceUrl := "f", shareableId := "s" } :=
  ⟨(getBankByAccountId_unique_or_null _ "acc1").1 (by decide),
   (getBankByAccountId_unique_or_null _ "acc1").2 _ (by decide)⟩

/-- C4: for every bankId, `getTransactionsByBankId` returns a total equal
to the sum of the sender-query total and the receiver-query total, and a
documents list — the concatenation of both result sets — whose length
equals that total. -/
theorem getTransactionsByBankId_total_eq (db : List TransactionDoc) (bankId : String) :
    (getTransactionsByBankId db bankId).total =
        (db.filter (fun t => t.senderBankId == bankId)).length +
          (db.filter (fun t => t.receiverBankId == bankId)).length ∧
    (getTransactionsByBankId db bankId).documents.length =
        (getTransactionsByBankId db bankId).total ∧
    (getTransactionsByBankId db bankId).documents =
        db.filter (fun t => t.senderBankId == bankId) ++
          db.filter (fun t => t.receiverBankId == bankId) := by
  simp [getTransactionsByBankId, listDocuments]

/-- C5 counterexample: an execution in which the authorization step fails
(`onDemandAuth` throws, swallowed into an absent link set) yet
`addFundingSource` does not propagate an absent result — registration
still runs and its URL is returned. -/
theorem addFundingSource_not_aborted_on_auth_failure :
    (DwollaEnv.onDemandAuth
        { onDemandAuth := Except.error ()
          fundingSourceCreate := fun _ => Except.ok (some "https://dwolla/funding-sources/fs1")
          customerCreate := fun _ => Except.ok none } = Except.error ()) ∧
    addFundingSource
        { onDemandAuth := Except.error ()
          fundingSourceCreate := fun _ => Except.ok (some "https://dwolla/funding-sources/fs1")
          customerCreate := fun _ => Except.ok none }
        { dwollaCustomerId := "cust1", processorToken := "ptok", bankName := "My Bank" } =
      (some "https://dwolla/funding-sources/fs1",
       [Ev.onDemandAuth,
        Ev.fundingSourceCreate
          { customerId := "cust1", name := "My Bank", plaidToken := "ptok" }]) :=
  ⟨rfl, rfl⟩

/-- C5 amended: `addFundingSource` first requests the on-demand
authorization (an absent link set on failure, without aborting), then
registers the funding source with a request carrying the customer id,
funding-source name and processor token — the obtained auth links are
placed in the options object but not in the outgoing request — and
returns the registration outcome: the funding-source URL, or an absent
result when registration fails or yields no location header. -/
theorem addFundingSource_request_and_result (env : DwollaEnv) (p : AddFundingSourceParams) :
    addFundingSource env p =
      (fundingSourceOutcome env
          { customerId := p.dwollaCustomerId, name := p.bankName, plaidToken := p.processorToken },
       [Ev.onDemandAuth,
        Ev.fundingSourceCreate
          { customerId := p.dwollaCustomerId, name := p.bankName, plaidToken := p.processorToken }]) := by
  unfold addFundingSource createOnDemandAuthorization createFundingSource fundingSourceOutcome
  cases env.onDemandAuth <;>
    cases h : env.fundingSourceCreate
      { customerId := p.dwollaCustomerId, name := p.bankName, plaidToken := p.processorToken } <;>
    simp [h]

/-- C7: for every caller-supplied transaction input, `createTransaction`
persists a Transaction document with channel "Online" and category
"Transfer", merged with the caller-supplied sender, receiver, amount and
currency fields. -/
theorem createTransaction_merges_fixed_fields (db : List TransactionDoc)
    (t : CreateTransactionProps) :
    ∃ d : TransactionDoc,
      createTransaction db true t = (db ++ [d], some d, [Ev.createTransactionDoc d]) ∧
      d.channel = "Online" ∧ d.category = "Transfer" ∧
      d.senderBankId = t.senderBankId ∧ d.receiverBankId = t.receiverBankId ∧
      d.amount = t.amount ∧ d.currency = t.currency := by
  exact ⟨_, rfl, rfl, rfl, rfl, rfl, rfl, rfl⟩

/-- C8 (code bug): on a successful execution — session client obtained,
cookie deleted, session revoked — `logoutAccount` falls off the end of
its body and returns the undefined value, not null; only the failure
path returns null. This contradicts the claim and the function's own
JSDoc ("Always returns null."). -/
theorem logoutAccount_success_returns_undefined :
    (logoutAccount { sessionClient := Except.ok (), deleteSession := Except.ok () }).1 =
        JsValue.undefined ∧
    (JsValue.undefined : JsValue Unit) ≠ JsValue.null ∧
    (logoutAccount { sessionClient := Except.ok (), deleteSession := Except.error () }).1 =
        JsValue.null ∧
    (logoutAccount { sessionClient := Except.error (), deleteSession := Except.ok () }).1 =
        JsValue.null :=
  ⟨rfl, by decide, rfl, rfl⟩

/-- C9: `getUserInfo` returns the first document of the equality-query
result with no uniqueness check — the undefined (absent) value when no
User record matches, and the first matching document when one or more
match. -/
theorem getUserInfo_returns_first_match (db : List UserRecord) (userId : String) :
    (db.filter (fun u => u.userId == userId) = [] →
      getUserInfo db userId = JsValue.undefined) ∧
    (∀ u rest, db.filter (fun u => u.userId == userId) = u :: rest →
      getUserInfo db userId = JsValue.value u) := by
  constructor
  · intro h
    simp [getUserInfo, listDocuments, h, jsIndex, parseStringify]
  · intro u rest h
    simp [getUserInfo, listDocuments, h, jsIndex, parseStringify]

/-- Witness for C9: with no matching record the action yields the
undefined value; with two matching records it yields the first,
enforcing no uniqueness. -/
theorem getUserInfo_returns_first_match_witness :
    getUserInfo [] "u1" = JsValue.undefined ∧
    getUserInfo
        [{ userId := "u1",
           doc := { data := { email := "a@b.com", firstName := "A", lastName := "B" },
                    userId := "u1", dwollaCustomerId := "c1", dwollaCustomerUrl := "https://d/c1" } },
         { userId := "u1",
           doc := { data := { email := "x@y.com", firstName := "X", lastName := "Y" },
                    userId := "u1", dwollaCustomerId := "c2", dwollaCustomerUrl := "https://d/c2" } }]
        "u1" =
      JsValue.value
        { userId := "u1",
          doc := { data := { email := "a@b.com", firstName := "A", lastName := "B" },
                   userId := "u1", dwollaCustomerId := "c1", dwollaCustomerUrl := "https://d/c1" } } :=
  ⟨(getUserInfo_returns_first_match [] "u1").1 (by decide),
   (getUserInfo_returns_first_match _ "u1").2 _
     [{ userId := "u1",
        doc := { data := { email := "x@y.com", firstName := "X", lastName := "Y" },
                 userId := "u1", dwollaCustomerId := "c2", dwollaCustomerUrl := "https://d/c2" } }]
     (by decide)⟩

/-- C6: when the aggregator's accounts list is empty, selecting the first
account makes the workflow fail as a defined, handled outcome: the throw
is caught by the workflow's handler, an absent result is returned, and
no later step runs. -/
theorem exchangePublicToken_empty_accounts_handled (env : ExchangeEnv) (p : ExchangeProps)
    (resp : ExchangeResp)
    (h1 : env.plaid.publicTokenExchange p.publicToken = Except.ok resp)
    (h2 : env.plaid.accountsGet resp.access_token = Except.ok []) :
    exchangePublicToken env p =
      (none, [Ev.publicTokenExchange p.publicToken, Ev.accountsGet resp.access_token]) := by
  simp [exchangePublicToken, h1, h2]

/-! ### Concrete environments for witnesses and counterexamples -/

/-- A Plaid client whose every request succeeds with fixed data. -/
def plaidOkEnv : PlaidEnv :=
  { publicTokenExchange := fun _ => Except.ok { access_token := "atok", item_id := "item1" }
    accountsGet := fun _ => Except.ok [{ account_id := "acc1", name := "Checking" }]
    processorTokenCreate := fun _ _ => Except.ok "ptok" }

/-- A Dwolla client whose every request succeeds with fixed data. -/
def dwollaOkEnv : DwollaEnv :=
  { onDemandAuth := Except.ok "links"
    fundingSourceCreate := fun _ => Except.ok (some "https://dwolla/funding-sources/fs1")
    customerCreate := fun _ => Except.ok (some "https://dwolla/customers/cust1") }

/-- A linking environment in which every external call succeeds. -/
def envAllOk : ExchangeEnv :=
  { plaid := plaidOkEnv, dwolla := dwollaOkEnv, createBankDoc := fun _ => Except.ok () }

/-- A linking environment whose bank-collection store rejects every
write; everything else succeeds. -/
def envBankStoreDown : ExchangeEnv :=
  { plaid := plaidOkEnv, dwolla := dwollaOkEnv, createBankDoc := fun _ => Except.error () }

/-- A linking environment in which the very first step, the public-token
exchange, throws. -/
def envTokFail : ExchangeEnv :=
  { plaid := { plaidOkEnv with publicTokenExchange := fun _ => Except.error () }
    dwolla := dwollaOkEnv
    createBankDoc := fun _ => Except.ok () }

/-- A linking environment in which the accounts list comes back empty. -/
def envEmptyAccounts : ExchangeEnv :=
  { plaid := { plaidOkEnv with accountsGet := fun _ => Except.ok [] }
    dwolla := dwollaOkEnv
    createBankDoc := fun _ => Except.ok () }

/-- The linking-workflow parameters used by the concrete runs. -/
def exProps : ExchangeProps :=
  { publicToken := "pub", userId := "u1", dwollaCustomerId := "cust1" }

/-- The Bank document the concrete successful run persists (and the
failing store rejects). -/
def bankDocAttempt : BankDoc :=
  { userId := "u1", bankId := "item1", accountId := "acc1", accessToken := "atok"
    fundingSourceUrl := "https://dwolla/funding-sources/fs1"
    shareableId := "encrypted:acc1" }

/-- Witness for C6: a concrete run whose accounts list is empty returns
the absent result with exactly the two calls made before the selection
failed. -/
theorem exchangePublicToken_empty_accounts_handled_witness :
    exchangePublicToken envEmptyAccounts exProps =
      (none, [Ev.publicTokenExchange "pub", Ev.accountsGet "atok"]) :=
  exchangePublicToken_empty_accounts_handled envEmptyAccounts exProps
    { access_token := "atok", item_id := "item1" } rfl rfl

/-- C10: an execution of `exchangePublicToken` that returns the success
result `{publicTokenExchange: "complete"}` although the Bank record was
not persisted — the store rejected the write, `createBankAccount`
swallowed the failure into an absent value, and `exchangePublicToken`
never checked that value. -/
theorem exchangePublicToken_success_despite_persistence_failure :
    exchangePublicToken envBankStoreDown exProps =
      (some { publicTokenExchange := "complete" },
       [Ev.publicTokenExchange "pub", Ev.accountsGet "atok",
        Ev.processorTokenCreate "atok" "acc1", Ev.onDemandAuth,
        Ev.fundingSourceCreate { customerId := "cust1", name := "Checking", plaidToken := "ptok" },
        Ev.createBankDoc bankDocAttempt, Ev.revalidate "/"]) ∧
    envBankStoreDown.createBankDoc bankDocAttempt = Except.error () ∧
    (createBankAccount envBankStoreDown bankDocAttempt).1 = none :=
  ⟨rfl, rfl, rfl⟩

/-- C2: on every successful run of `signUp`, exactly one identity account
is created, exactly one processor customer is created, exactly one User
document is persisted, the persisted User's `dwollaCustomerId` equals
the identifier extracted from the processor-returned customer URL, and
the session cookie is set last. -/
theorem signUp_success_exactly_once (env : SignUpEnv) (denv : DwollaEnv)
    (password : String) (userData : UserData) (u : UserDoc) (tr : List Ev)
    (h : signUp env denv password userData = (some u, tr)) :
    (tr.filter isAccountCreate).length = 1 ∧
    (tr.filter isDwollaCustomerCreate).length = 1 ∧
    (tr.filter isCreateUserDoc).length = 1 ∧
    u.dwollaCustomerId = extractCustomerIdFromUrl u.dwollaCustomerUrl ∧
    (∃ secret, tr.getLast? = some (Ev.cookieSet "appwrite-session" secret)) := by
  cases ha : env.accountCreate userData.email password
      (userData.firstName ++ " " ++ userData.lastName) with
  | error e => simp [signUp, ha] at h
  | ok accountId =>
    cases hc : denv.customerCreate userData with
    | error e => simp [signUp, createDwollaCustomer, ha, hc] at h
    | ok loc =>
      cases loc with
      | none => simp [signUp, createDwollaCustomer, ha, hc] at h
      | some url =>
        by_cases hurl : url = ""
        · simp [signUp, createDwollaCustomer, ha, hc, hurl] at h
        · cases hd : env.createUserDoc
              { data := userData, userId := accountId
                dwollaCustomerId := extractCustomerIdFromUrl url
                dwollaCustomerUrl := url } with
          | error e => simp [signUp, createDwollaCustomer, ha, hc, hurl, hd] at h
          | ok _ =>
            cases hs : env.sessionCreate userData.email password with
            | error e => simp [signUp, createDwollaCustomer, ha, hc, hurl, hd, hs] at h
            | ok session =>
              simp [signUp, createDwollaCustomer, ha, hc, hurl, hd, hs] at h
              obtain ⟨hu, htr⟩ := h
              subst hu
              subst htr
              refine ⟨?_, ?_, ?_, rfl, ⟨session.secret, ?_⟩⟩ <;>
                simp [isAccountCreate, isDwollaCustomerCreate, isCreateUserDoc]

/-- An identity/data-store environment whose every request succeeds with
fixed data. -/
def signUpEnvOk : SignUpEnv :=
  { accountCreate := fun _ _ _ => Except.ok "acct-id-1"
    createUserDoc := fun _ => Except.ok ()
    sessionCreate := fun _ _ => Except.ok { secret := "sek", userId := "acct-id-1" } }

/-- The sign-up input of the spec scenario. -/
def userDataW : UserData := { email := "a@b.com", firstName := "A", lastName := "B" }

/-- The User document the concrete successful sign-up run persists. -/
def userDocW : UserDoc :=
  { data := userDataW, userId := "acct-id-1", dwollaCustomerId := "cust1"
    dwollaCustomerUrl := "https://dwolla/customers/cust1" }

/-- The trace of the concrete successful sign-up run. -/
def signUpTraceW : List Ev :=
  [Ev.accountCreate "a@b.com" "pw" "A B", Ev.dwollaCustomerCreate userDataW,
   Ev.createUserDoc userDocW, Ev.sessionCreate "a@b.com" "pw",
   Ev.cookieSet "appwrite-session" "sek"]

/-- Witness for C2: the spec scenario run — each create happens exactly
once, the persisted id matches the URL-embedded id, and the cookie-set
is the final step. -/
theorem signUp_success_exactly_once_witness :
    (signUpTraceW.filter isAccountCreate).length = 1 ∧
    (signUpTraceW.filter isDwollaCustomerCreate).length = 1 ∧
    (signUpTraceW.filter isCreateUserDoc).length = 1 ∧
    userDocW.dwollaCustomerId = extractCustomerIdFromUrl userDocW.dwollaCustomerUrl ∧
    (∃ secret, signUpTraceW.getLast? = some (Ev.cookieSet "appwrite-session" secret)) :=
  signUp_success_exactly_once signUpEnvOk dwollaOkEnv "pw" userDataW userDocW
    signUpTraceW (by decide)

/-- The trace of one `createBankAccount` call is the single store write,
whether or not the store accepts it. -/
theorem createBankAccount_trace (env : ExchangeEnv) (doc : BankDoc) :
    (createBankAccount env doc).2 = [Ev.createBankDoc doc] := by
  unfold createBankAccount
  cases env.createBankDoc doc <;> simp

/-- C1: in every execution of `exchangePublicToken`, Bank-record
persistence happens only if the funding-source registration of that run
returned a non-empty URL (which becomes the persisted record's
`fundingSourceUrl`); and the failure of any earlier step — token
exchange, account fetch, first-account selection, processor token,
funding source — stops the workflow with exactly the calls made so far
and no later step. -/
theorem exchangePublicToken_gated_and_sequential (env : ExchangeEnv) (p : ExchangeProps) :
    (∀ d : BankDoc, Ev.createBankDoc d ∈ (exchangePublicToken env p).2 →
        d.fundingSourceUrl ≠ "" ∧
        ∃ args : AddFundingSourceParams,
          args.dwollaCustomerId = p.dwollaCustomerId ∧
          (addFundingSource env.dwolla args).1 = some d.fundingSourceUrl) ∧
    (env.plaid.publicTokenExchange p.publicToken = Except.error () →
        exchangePublicToken env p = (none, [Ev.publicTokenExchange p.publicToken])) ∧
    (∀ resp, env.plaid.publicTokenExchange p.publicToken = Except.ok resp →
        env.plaid.accountsGet resp.access_token = Except.error () →
        exchangePublicToken env p =
          (none, [Ev.publicTokenExchange p.publicToken, Ev.accountsGet resp.access_token])) ∧
    (∀ resp a rest, env.plaid.publicTokenExchange p.publicToken = Except.ok resp →
        env.plaid.accountsGet resp.access_token = Except.ok (a :: rest) →
        env.plaid.processorTokenCreate resp.access_token a.account_id = Except.error () →
        exchangePublicToken env p =
          (none, [Ev.publicTokenExchange p.publicToken, Ev.accountsGet resp.access_token,
                  Ev.processorTokenCreate resp.access_token a.account_id])) ∧
    (∀ resp a rest ptok, env.plaid.publicTokenExchange p.publicToken = Except.ok resp →
        env.plaid.accountsGet resp.access_token = Except.ok (a :: rest) →
        env.plaid.processorTokenCreate resp.access_token a.account_id = Except.ok ptok →
        (∀ url, (addFundingSource env.dwolla
            { dwollaCustomerId := p.dwollaCustomerId, processorToken := ptok,
              bankName := a.name }).1 = some url → url = "") →
        (exchangePublicToken env p).1 = none ∧
        (∀ d : BankDoc, Ev.createBankDoc d ∉ (exchangePublicToken env p).2) ∧
        Ev.revalidate "/" ∉ (exchangePublicToken env p).2) := by
  refine ⟨?_, ?_, ?_, ?_, ?_⟩
  · intro d hd
    cases h1 : env.plaid.publicTokenExchange p.publicToken with
    | error e => simp [exchangePublicToken, h1] at hd
    | ok resp =>
      cases h2 : env.plaid.accountsGet resp.access_token with
      | error e => simp [exchangePublicToken, h1, h2] at hd
      | ok accounts =>
        cases accounts with
        | nil => simp [exchangePublicToken, h1, h2] at hd
        | cons a rest =>
          cases h3 : env.plaid.processorTokenCreate resp.access_token a.account_id with
          | error e => simp [exchangePublicToken, h1, h2, h3] at hd
          | ok ptok =>
            cases hf : fundingSourceOutcome env.dwolla
                { customerId := p.dwollaCustomerId, name := a.name, plaidToken := ptok } with
            | none =>
              simp [exchangePublicToken, h1, h2, h3, addFundingSource_run,
                mkFundingSourceRequest, hf] at hd
            | some url =>
              by_cases hurl : url = ""
              · simp [exchangePublicToken, h1, h2, h3, addFundingSource_run,
                  mkFundingSourceRequest, hf, hurl] at hd
              · simp [exchangePublicToken, h1, h2, h3, addFundingSource_run,
                  mkFundingSourceRequest, hf, hurl, createBankAccount_trace] at hd
                subst hd
                refine ⟨hurl, ?_⟩
                refine ⟨⟨p.dwollaCustomerId, ptok, a.name⟩, rfl, ?_⟩
                rw [addFundingSource_run]
                simpa [mkFundingSourceRequest] using hf
  · intro h1
    simp [exchangePublicToken, h1]
  · intro resp h1 h2
    simp [exchangePublicToken, h1, h2]
  · intro resp a rest h1 h2 h3
    simp [exchangePublicToken, h1, h2, h3]
  · intro resp a rest ptok h1 h2 h3 hfs
    cases hf : fundingSourceOutcome env.dwolla
        { customerId := p.dwollaCustomerId, name := a.name, plaidToken := ptok } with
    | none =>
      simp [exchangePublicToken, h1, h2, h3, addFundingSource_run,
        mkFundingSourceRequest, hf]
    | some url =>
      have hurl : url = "" := by
        apply hfs
        rw [addFundingSource_run]
        simpa [mkFundingSourceRequest] using hf
      subst hurl
      simp [exchangePublicToken, h1, h2, h3, addFundingSource_run,
        mkFundingSourceRequest, hf]

/-- Witness for C1: in the all-success run the persisted record's URL is
the non-empty one the registration returned, and in the run whose token
exchange throws the workflow stops after that single call. -/
theorem exchangePublicToken_gated_and_sequential_witness :
    (bankDocAttempt.fundingSourceUrl ≠ "" ∧
      ∃ args : AddFundingSourceParams,
        args.dwollaCustomerId = "cust1" ∧
        (addFundingSource envAllOk.dwolla args).1 = some bankDocAttempt.fundingSourceUrl) ∧
    exchangePublicToken envTokFail exProps = (none, [Ev.publicTokenExchange "pub"]) :=
  ⟨(exchangePublicToken_gated_and_sequential envAllOk exProps).1 bankDocAttempt (by decide),
   (exchangePublicToken_gated_and_sequential envTokFail exProps).2.1 rfl⟩
